import Mathlib

/-!
Shallow embedding of src/setup/gemini-proxy.ts (the Proxy Bootstrap and
Health Supervisor): the port allocator findAvailablePort, the health
poller waitForProxy, and the orchestrator setupGeminiProxy.

The effectful Node APIs are modelled as oracles packaged in a World
record: port bindability is a function from port number to Bool (the
result of the bind-then-close probe), the accounts-list invocation is an
Except value (error = the invocation itself threw, ok = its stdout), and
the health probe is a function from elapsed milliseconds to Bool (the
result of the curl against /health at that instant). Time is discrete:
each probe is instantaneous and each sleep advances the clock by exactly
the retry interval, so probes happen at elapsed times 0, 500, 1000, ...
Observable side effects (spawn, kill, process.env writes, the warning
log) are collected in an Effects record returned next to the result.
-/

namespace GeminiProxy

/-- Error kinds of PentestError as used at its call sites: the string
literals passed as second constructor argument in gemini-proxy.ts. -/
inductive ErrKind where
  | config
  | tool
deriving Repr, DecidableEq

/-- Modelled from the spec: the PentestError class lives in
src/error-handling.js, which is not among the sources; its constructor
shape (message, kind, retryable) is taken from the two call sites in
gemini-proxy.ts, and the two kinds match the two error classes of the
design (ConfigurationError = kind config with retryable = false,
ToolError = kind tool with retryable = true). -/
structure PentestError where
  message : String
  kind : ErrKind
  retryable : Bool
deriving Repr, DecidableEq

/-- Every value thrown by gemini-proxy.ts: either a PentestError or a
plain JavaScript Error carrying only a message (thrown by
findAvailablePort on exhaustion and by waitForProxy on timeout). -/
inductive ThrownError where
  | pentest (e : PentestError)
  | generic (message : String)
deriving Repr, DecidableEq

/-- Decidable substring test on character lists, used to model the
JavaScript String.prototype.includes call on the accounts stdout. -/
def listIsInfixOf : List Char → List Char → Bool
  | pat, [] => pat.isEmpty
  | pat, c :: t => pat.isPrefixOf (c :: t) || listIsInfixOf pat t

/-- Model of JavaScript String.prototype.includes. -/
def stringIncludes (s pat : String) : Bool :=
  listIsInfixOf pat.data s.data

/-- Model of JavaScript String.prototype.trim: drop leading and trailing
whitespace characters. -/
def jsTrim (s : String) : String :=
  ⟨((s.data.dropWhile Char.isWhitespace).reverse.dropWhile Char.isWhitespace).reverse⟩

/-- Loop of findAvailablePort. The loop variable port starts at
startPort; while the bind-then-close probe fails, port is incremented
and, as soon as it passes startPort + 100, a plain Error is thrown. The
probe result is the oracle free. The source guard (throw when the
incremented port exceeds startPort + 100) is carried here by the fuel
argument, which counts the increments still allowed before the guard
fires: it equals startPort + 100 - port at every call, so fuel = 0 with
a failed probe is exactly the state in which the source throws. -/
def portLoop (free : Nat → Bool) (startPort : Nat) : Nat → Nat → Except ThrownError Nat
  | port, 0 =>
    if free port then
      Except.ok port
    else
      Except.error (ThrownError.generic
        ("Could not find an open port between " ++ toString startPort ++ " and "
          ++ toString (startPort + 100)))
  | port, fuel + 1 =>
    if free port then
      Except.ok port
    else
      portLoop free startPort (port + 1) fuel

/-- Model of findAvailablePort: run the probe loop from startPort with
100 increments allowed, i.e. over the window up to startPort + 100. -/
def findAvailablePort (free : Nat → Bool) (startPort : Nat) : Except ThrownError Nat :=
  portLoop free startPort startPort 100

/-- Outcome of the health-poll loop, together with the value of the
elapsed clock when the loop stopped. ready elapsed is the early return
after a successful curl; timedOut elapsed is the fall-through that in
the source throws Error with message Timed out waiting for Antigravity
proxy on port ... -/
inductive WaitOutcome where
  | ready (elapsed : Nat)
  | timedOut (elapsed : Nat)
deriving Repr, DecidableEq

/-- Loop of waitForProxy: while the elapsed time is below the timeout,
issue the curl probe; on success return, on failure sleep 500 ms and
retry. The probe result at a given elapsed time is the oracle respond.
The source guard (probe only while elapsed < timeoutMs) is carried by
the fuel argument, which counts the probes still allowed: a probe
happens at elapsed = 500 * k exactly for k below the ceiling of
timeoutMs / 500, so fuel starts at that ceiling and fuel = 0 is exactly
the state in which the source loop falls through and throws. -/
def waitLoop (respond : Nat → Bool) : Nat → Nat → WaitOutcome
  | elapsed, 0 => WaitOutcome.timedOut elapsed
  | elapsed, fuel + 1 =>
    if respond elapsed then
      WaitOutcome.ready elapsed
    else
      waitLoop respond (elapsed + 500) fuel

/-- Model of waitForProxy: poll from elapsed time 0, with one probe per
retry interval for as long as the elapsed time stays below the timeout,
hence ceiling of timeoutMs / 500 probes in total. The port argument of
the source only appears inside the probed URL and the timeout error
message, so it is absorbed into the respond oracle. -/
def waitForProxy (respond : Nat → Bool) (timeoutMs : Nat) : WaitOutcome :=
  waitLoop respond 0 ((timeoutMs + 499) / 500)

/-- Oracles standing for the effectful environment of one bootstrap run:
whether fs.existsSync finds the proxy binary, what the accounts-list
invocation produces (error = the command threw, ok = its stdout), which
ports the bind probe reports free, and at which elapsed times the health
probe gets a response. -/
structure World where
  proxyBinExists : Bool
  accountsResult : Except String String
  free : Nat → Bool
  respond : Nat → Bool

/-- Observable side effects of one setupGeminiProxy run: whether the
failed-to-check-accounts warning was logged, whether the port allocator
was invoked, whether the sidecar was spawned, whether any code path
tried to kill it, and the three process.env variables it writes. -/
structure Effects where
  warnedAccounts : Bool
  portAllocatorInvoked : Bool
  spawned : Bool
  killed : Bool
  envPORT : Option String
  envANTHROPIC_BASE_URL : Option String
  envSHANNON_MODEL_PROVIDER : Option String
deriving Repr, DecidableEq

/-- Effects at entry of setupGeminiProxy: nothing logged, spawned or
written yet. -/
def Effects.initial : Effects :=
  ⟨false, false, false, false, none, none, none⟩

/-- Stages 2 to 5 of setupGeminiProxy, the straight-line code after the
accounts try/catch block, parameterised by the effects accumulated so
far (they differ only in whether the accounts warning was logged):
findAvailablePort(8080) whose plain Error propagates uncaught, then
process.env.PORT is set and the detached sidecar spawned, then
waitForProxy; its timeout is caught and rethrown as
PentestError(Failed to start Gemini proxy, tool, true), and on success
process.env.ANTHROPIC_BASE_URL and process.env.SHANNON_MODEL_PROVIDER
are set. No code path kills the spawned process, so killed is never
written. -/
def bootstrapAfterAccounts (w : World) (eff1 : Effects) : Except ThrownError Unit × Effects :=
  let eff2 := { eff1 with portAllocatorInvoked := true }
  match findAvailablePort w.free 8080 with
  | Except.error e => (Except.error e, eff2)
  | Except.ok port =>
    let eff3 := { eff2 with envPORT := some (toString port), spawned := true }
    match waitForProxy w.respond 10000 with
    | WaitOutcome.timedOut _ =>
      (Except.error (ThrownError.pentest
        ⟨"Failed to start Gemini proxy", ErrKind.tool, true⟩), eff3)
    | WaitOutcome.ready _ =>
      (Except.ok (), { eff3 with
        envANTHROPIC_BASE_URL := some ("http://localhost:" ++ toString port),
        envSHANNON_MODEL_PROVIDER := some "gemini" })

/-- Model of setupGeminiProxy, following the source line by line:
1. resolve the binary path and fail with PentestError(config, false)
   when fs.existsSync is false;
2. run accounts list inside try/catch: on ok stdout containing the
   sentinel No accounts configured or trimming to the empty string,
   throw PentestError(config, false) (rethrown unchanged by the catch
   because of the instanceof test); on an invocation error, log a
   warning and fall through to the code after the try/catch;
3. hand over to bootstrapAfterAccounts for the remaining stages. -/
def setupGeminiProxy (w : World) : Except ThrownError Unit × Effects :=
  let eff0 := Effects.initial
  if w.proxyBinExists = false then
    (Except.error (ThrownError.pentest
      ⟨"antigravity-claude-proxy binary not found. Please run npm install.",
        ErrKind.config, false⟩), eff0)
  else
    match w.accountsResult with
    | Except.ok stdout =>
      if stringIncludes stdout "No accounts configured" || jsTrim stdout = "" then
        (Except.error (ThrownError.pentest
          ⟨"Antigravity proxy not authenticated", ErrKind.config, false⟩), eff0)
      else
        bootstrapAfterAccounts w eff0
    | Except.error _ =>
      bootstrapAfterAccounts w { eff0 with warnedAccounts := true }


/-! Concrete runs used to exercise the model on closed inputs. -/

/-- A run with the binary present, one configured account, every port in
the window already bound, and a healthy sidecar. -/
def portsExhaustedRun : World :=
  ⟨true, Except.ok "1 account: user@example.com", fun _ => false, fun _ => true⟩

/-- A run with the binary present, one configured account, port 8080
free, and a sidecar that answers the very first health probe. -/
def healthyRun : World :=
  ⟨true, Except.ok "1 account: user@example.com", fun _ => true, fun _ => true⟩

/-- A run with the binary present, one configured account, port 8080
free, and a sidecar that never answers a health probe. -/
def neverHealthyRun : World :=
  ⟨true, Except.ok "1 account: user@example.com", fun _ => true, fun _ => false⟩

/-- A run in which the accounts-list invocation itself throws, port 8080
is taken but 8081 free, and the sidecar answers from 600 ms onwards. -/
def accountsCrashRun : World :=
  ⟨true, Except.error "exit status 1", fun p => decide (p = 8081), fun t => decide (600 ≤ t)⟩

/-- A run whose accounts-list stdout carries the no-accounts sentinel. -/
def noAccountsRun : World :=
  ⟨true, Except.ok "No accounts configured\n", fun _ => true, fun _ => true⟩

/-- A run whose accounts-list stdout is whitespace only. -/
def whitespaceAccountsRun : World :=
  ⟨true, Except.ok "  \n ", fun _ => true, fun _ => true⟩

/-- A run in which the proxy binary is missing. -/
def missingBinaryRun : World :=
  ⟨false, Except.ok "1 account: user@example.com", fun _ => true, fun _ => true⟩


/-! Loop lemmas for the port allocator. -/

/-- If the probe loop returns a port, that port passed the bind probe
and lies in the probed window. -/
theorem portLoop_ok_inv (free : Nat → Bool) (startPort : Nat) (fuel : Nat) :
    ∀ port q, portLoop free startPort port fuel = Except.ok q →
      free q = true ∧ port ≤ q ∧ q ≤ port + fuel := by
  induction fuel with
  | zero =>
    intro port q h
    by_cases hf : free port = true
    · simp [portLoop, hf] at h
      subst h
      exact ⟨hf, Nat.le_refl _, Nat.le_refl _⟩
    · simp [portLoop, hf] at h
  | succ f ih =>
    intro port q h
    by_cases hf : free port = true
    · simp [portLoop, hf] at h
      subst h
      exact ⟨hf, Nat.le_refl _, by omega⟩
    · simp [portLoop, hf] at h
      obtain ⟨hq, hle, hub⟩ := ih (port + 1) q h
      exact ⟨hq, by omega, by omega⟩

/-- If some port within fuel increments of the current one is free, the
probe loop returns the lowest free port at or above the current one. -/
theorem portLoop_finds_least (free : Nat → Bool) (startPort : Nat) (fuel : Nat) :
    ∀ port, (∃ k, k ≤ fuel ∧ free (port + k) = true) →
      ∃ q, portLoop free startPort port fuel = Except.ok q ∧ free q = true ∧
        port ≤ q ∧ q ≤ port + fuel ∧ ∀ r, port ≤ r → r < q → free r = false := by
  induction fuel with
  | zero =>
    intro port hex
    obtain ⟨k, hk, hfree⟩ := hex
    have hk0 : k = 0 := by omega
    subst hk0
    simp only [Nat.add_zero] at hfree
    refine ⟨port, ?_, hfree, Nat.le_refl _, Nat.le_refl _, ?_⟩
    · simp [portLoop, hfree]
    · intro r h1 h2
      omega
  | succ f ih =>
    intro port hex
    by_cases hf : free port = true
    · refine ⟨port, ?_, hf, Nat.le_refl _, by omega, ?_⟩
      · simp [portLoop, hf]
      · intro r h1 h2
        omega
    · obtain ⟨k, hk, hfree⟩ := hex
      have hkpos : k ≠ 0 := by
        intro h0
        subst h0
        simp only [Nat.add_zero] at hfree
        exact hf hfree
      have hex2 : ∃ k2, k2 ≤ f ∧ free (port + 1 + k2) = true := by
        refine ⟨k - 1, by omega, ?_⟩
        have : port + 1 + (k - 1) = port + k := by omega
        rw [this]
        exact hfree
      obtain ⟨q, hq, hfq, hlb, hub, hmin⟩ := ih (port + 1) hex2
      refine ⟨q, ?_, hfq, by omega, by omega, ?_⟩
      · simp [portLoop, hf, hq]
      · intro r h1 h2
        rcases Nat.eq_or_lt_of_le h1 with heq | hlt
        · rw [← heq]
          simp [hf]
        · exact hmin r (by omega) h2

/-- If no port within fuel increments of the current one is free, the
probe loop throws the plain could-not-find-an-open-port Error. -/
theorem portLoop_exhausts (free : Nat → Bool) (startPort : Nat) (fuel : Nat) :
    ∀ port, (∀ k, k ≤ fuel → free (port + k) = false) →
      portLoop free startPort port fuel = Except.error (ThrownError.generic
        ("Could not find an open port between " ++ toString startPort ++ " and "
          ++ toString (startPort + 100))) := by
  induction fuel with
  | zero =>
    intro port hall
    have h0 : free port = false := by
      have := hall 0 (Nat.le_refl _)
      simpa using this
    simp [portLoop, h0]
  | succ f ih =>
    intro port hall
    have h0 : free port = false := by
      have := hall 0 (by omega)
      simpa using this
    have hrest : ∀ k, k ≤ f → free (port + 1 + k) = false := by
      intro k hk
      have : port + 1 + k = port + (k + 1) := by omega
      rw [this]
      exact hall (k + 1) (by omega)
    simp [portLoop, h0, ih (port + 1) hrest]

/-! Loop lemmas for the health poller. -/

/-- A successful poll happened at one of the probe instants: 500 ms
times an index below the number of allowed probes, and the probe
responded there. -/
theorem waitLoop_ready_inv (respond : Nat → Bool) (fuel : Nat) :
    ∀ elapsed e, waitLoop respond elapsed fuel = WaitOutcome.ready e →
      ∃ j, j < fuel ∧ e = elapsed + 500 * j ∧ respond e = true := by
  induction fuel with
  | zero =>
    intro elapsed e h
    simp [waitLoop] at h
  | succ f ih =>
    intro elapsed e h
    by_cases hr : respond elapsed = true
    · simp [waitLoop, hr] at h
      exact ⟨0, by omega, by omega, by rw [h] at hr; exact hr⟩
    · simp [waitLoop, hr] at h
      obtain ⟨j, hj, he, hres⟩ := ih (elapsed + 500) e h
      exact ⟨j + 1, by omega, by omega, hres⟩

/-- If some allowed probe instant gets a response, the poll loop
returns ready. -/
theorem waitLoop_ready_exists (respond : Nat → Bool) (fuel : Nat) :
    ∀ elapsed, (∃ j, j < fuel ∧ respond (elapsed + 500 * j) = true) →
      ∃ e, waitLoop respond elapsed fuel = WaitOutcome.ready e := by
  induction fuel with
  | zero =>
    intro elapsed hex
    obtain ⟨j, hj, _⟩ := hex
    omega
  | succ f ih =>
    intro elapsed hex
    by_cases hr : respond elapsed = true
    · exact ⟨elapsed, by simp [waitLoop, hr]⟩
    · obtain ⟨j, hj, hres⟩ := hex
      have hjpos : j ≠ 0 := by
        intro h0
        subst h0
        simp only [Nat.mul_zero, Nat.add_zero] at hres
        exact hr hres
      have hex2 : ∃ j2, j2 < f ∧ respond (elapsed + 500 + 500 * j2) = true := by
        refine ⟨j - 1, by omega, ?_⟩
        have : elapsed + 500 + 500 * (j - 1) = elapsed + 500 * j := by omega
        rw [this]
        exact hres
      obtain ⟨e, he⟩ := ih (elapsed + 500) hex2
      exact ⟨e, by simp [waitLoop, hr, he]⟩

/-- With a probe that never gets a response, the poll loop runs through
all its allowed probes and times out with the clock advanced by 500 ms
per allowed probe. -/
theorem waitLoop_never_responds (respond : Nat → Bool)
    (hresp : ∀ t, respond t = false) (fuel : Nat) :
    ∀ elapsed, waitLoop respond elapsed fuel =
      WaitOutcome.timedOut (elapsed + 500 * fuel) := by
  induction fuel with
  | zero =>
    intro elapsed
    simp [waitLoop]
  | succ f ih =>
    intro elapsed
    rw [waitLoop]
    simp only [hresp, Bool.false_eq_true, if_false]
    rw [ih (elapsed + 500)]
    congr 1
    omega

/-- When the probe loop throws, the thrown value is the plain
could-not-find-an-open-port Error, never a PentestError. -/
theorem portLoop_error_inv (free : Nat → Bool) (startPort : Nat) (fuel : Nat) :
    ∀ port e, portLoop free startPort port fuel = Except.error e →
      e = ThrownError.generic
        ("Could not find an open port between " ++ toString startPort ++ " and "
          ++ toString (startPort + 100)) := by
  induction fuel with
  | zero =>
    intro port e h
    by_cases hf : free port = true
    · simp [portLoop, hf] at h
    · simp [portLoop, hf] at h
      exact h.symm
  | succ f ih =>
    intro port e h
    by_cases hf : free port = true
    · simp [portLoop, hf] at h
    · simp [portLoop, hf] at h
      exact ih (port + 1) e h

/-! Shape lemmas for the orchestrator. -/

/-- Every setupGeminiProxy run either stops before the port allocator
with a non-retryable configuration PentestError and untouched effects,
or reduces to the post-accounts stages started from one of the two
possible effect states (warning logged or not). -/
theorem setup_shape (w : World) :
    (∃ e, (setupGeminiProxy w).1 = Except.error (ThrownError.pentest e) ∧
      e.kind = ErrKind.config ∧ e.retryable = false ∧
      (setupGeminiProxy w).2 = Effects.initial) ∨
    (∃ eff1, (eff1 = Effects.initial ∨
        eff1 = { Effects.initial with warnedAccounts := true }) ∧
      setupGeminiProxy w = bootstrapAfterAccounts w eff1) := by
  unfold setupGeminiProxy
  split
  · exact Or.inl ⟨_, rfl, rfl, rfl, rfl⟩
  · split
    · split
      · exact Or.inl ⟨_, rfl, rfl, rfl, rfl⟩
      · exact Or.inr ⟨Effects.initial, Or.inl rfl, rfl⟩
    · exact Or.inr ⟨_, Or.inr rfl, rfl⟩

/-- The post-accounts stages do not touch the kill flag. -/
theorem after_accounts_killed (w : World) (eff1 : Effects) :
    (bootstrapAfterAccounts w eff1).2.killed = eff1.killed := by
  unfold bootstrapAfterAccounts
  split
  · rfl
  · split <;> rfl

/-- The post-accounts stages preserve the warning flag and always mark
the port allocator as invoked. -/
theorem after_accounts_invokes_allocator (w : World) (eff1 : Effects) :
    (bootstrapAfterAccounts w eff1).2.warnedAccounts = eff1.warnedAccounts ∧
    (bootstrapAfterAccounts w eff1).2.portAllocatorInvoked = true := by
  unfold bootstrapAfterAccounts
  split
  · exact ⟨rfl, rfl⟩
  · split <;> exact ⟨rfl, rfl⟩

/-- As soon as the allocator returns a port, the sidecar is spawned,
whatever the health poll then does. -/
theorem after_accounts_spawns (w : World) (eff1 : Effects) (port : Nat)
    (h : findAvailablePort w.free 8080 = Except.ok port) :
    (bootstrapAfterAccounts w eff1).2.spawned = true := by
  cases hwp : waitForProxy w.respond 10000 <;>
    (unfold bootstrapAfterAccounts; rw [h, hwp])

/-- A successful post-accounts run allocated a verified port and
published both environment variables derived from it. -/
theorem after_accounts_ok_inv (w : World) (eff1 : Effects)
    (h : (bootstrapAfterAccounts w eff1).1 = Except.ok ()) :
    ∃ port, findAvailablePort w.free 8080 = Except.ok port ∧
      (bootstrapAfterAccounts w eff1).2.envANTHROPIC_BASE_URL =
        some ("http://localhost:" ++ toString port) ∧
      (bootstrapAfterAccounts w eff1).2.envSHANNON_MODEL_PROVIDER = some "gemini" ∧
      (bootstrapAfterAccounts w eff1).2.envPORT = some (toString port) := by
  cases hfa : findAvailablePort w.free 8080 with
  | error e =>
    exfalso
    unfold bootstrapAfterAccounts at h
    rw [hfa] at h
    simp at h
  | ok port =>
    cases hwp : waitForProxy w.respond 10000 with
    | timedOut t =>
      exfalso
      unfold bootstrapAfterAccounts at h
      rw [hfa, hwp] at h
      simp at h
    | ready t =>
      refine ⟨port, rfl, ?_, ?_, ?_⟩ <;>
        (unfold bootstrapAfterAccounts; rw [hfa, hwp])

/-- A post-accounts run that fails with the retryable tool PentestError
is exactly a health-poll timeout: the port was allocated, PORT was
already written, the sidecar was spawned, and the two publication
variables were left as they were at entry. -/
theorem after_accounts_timeout_inv (w : World) (eff1 : Effects)
    (h : (bootstrapAfterAccounts w eff1).1 = Except.error (ThrownError.pentest
      ⟨"Failed to start Gemini proxy", ErrKind.tool, true⟩)) :
    ∃ port, findAvailablePort w.free 8080 = Except.ok port ∧
      (bootstrapAfterAccounts w eff1).2.envPORT = some (toString port) ∧
      (bootstrapAfterAccounts w eff1).2.spawned = true ∧
      (bootstrapAfterAccounts w eff1).2.envANTHROPIC_BASE_URL =
        eff1.envANTHROPIC_BASE_URL ∧
      (bootstrapAfterAccounts w eff1).2.envSHANNON_MODEL_PROVIDER =
        eff1.envSHANNON_MODEL_PROVIDER := by
  cases hfa : findAvailablePort w.free 8080 with
  | error e =>
    exfalso
    unfold bootstrapAfterAccounts at h
    rw [hfa] at h
    simp only [Except.error.injEq] at h
    have := portLoop_error_inv w.free 8080 100 8080 e hfa
    rw [this] at h
    simp at h
  | ok port =>
    cases hwp : waitForProxy w.respond 10000 with
    | ready t =>
      exfalso
      unfold bootstrapAfterAccounts at h
      rw [hfa, hwp] at h
      simp at h
    | timedOut t =>
      refine ⟨port, rfl, ?_, ?_, ?_, ?_⟩ <;>
        (unfold bootstrapAfterAccounts; rw [hfa, hwp])

/-- No run of the orchestrator ever attempts to kill the spawned
process: the kill flag stays at its initial value on every path. -/
theorem setup_never_kills (w : World) : (setupGeminiProxy w).2.killed = false := by
  rcases setup_shape w with ⟨e, _, _, _, heff⟩ | ⟨eff1, heff1, heq⟩
  · rw [heff]
    rfl
  · rw [heq, after_accounts_killed]
    rcases heff1 with h | h <;> rw [h] <;> rfl

/-! Claims. -/

/-- C1: for every preferred starting port p such that at least one port
in the window from p to p + 100 is free, findAvailablePort returns the
lowest free port of that window, having probed candidates in ascending
order from p with the bind-then-close probe. -/
theorem C1_port_allocator_returns_lowest_free_port (free : Nat → Bool) (p : Nat)
    (h : ∃ k, k ≤ 100 ∧ free (p + k) = true) :
    ∃ q, findAvailablePort free p = Except.ok q ∧ free q = true ∧
      p ≤ q ∧ q ≤ p + 100 ∧ ∀ r, p ≤ r → r < q → free r = false := by
  have := portLoop_finds_least free p 100 p h
  simpa [findAvailablePort] using this

/-- Witness for C1: with only port 8082 free, the allocator starts at
8080 and returns 8082, the lowest free port of the window. -/
theorem C1_witness :
    ∃ q, findAvailablePort (fun port => decide (port = 8082)) 8080 = Except.ok q ∧
      (fun port => decide (port = 8082)) q = true ∧ 8080 ≤ q ∧ q ≤ 8080 + 100 ∧
      ∀ r, 8080 ≤ r → r < q → (fun port => decide (port = 8082)) r = false :=
  C1_port_allocator_returns_lowest_free_port (fun port => decide (port = 8082)) 8080
    ⟨2, by decide, rfl⟩

/-- C2: whenever the binary is present and the accounts check output
contains the no-accounts sentinel or is empty, bootstrap fails with the
non-retryable configuration PentestError and the sidecar is never
spawned. -/
theorem C2_sentinel_or_empty_output_fails_config_without_spawn (w : World) (s : String)
    (hbin : w.proxyBinExists = true)
    (hacc : w.accountsResult = Except.ok s)
    (hs : stringIncludes s "No accounts configured" = true ∨ jsTrim s = "") :
    (setupGeminiProxy w).1 = Except.error (ThrownError.pentest
      ⟨"Antigravity proxy not authenticated", ErrKind.config, false⟩) ∧
    (setupGeminiProxy w).2.spawned = false := by
  have hcond : (stringIncludes s "No accounts configured" || decide (jsTrim s = "")) = true := by
    rcases hs with h | h <;> simp [h]
  constructor <;> simp [setupGeminiProxy, hbin, hacc, hcond, Effects.initial]

/-- Witness for C2: a run whose accounts output is the sentinel line
fails with the configuration error and spawns nothing. -/
theorem C2_witness :
    (setupGeminiProxy noAccountsRun).1 = Except.error (ThrownError.pentest
      ⟨"Antigravity proxy not authenticated", ErrKind.config, false⟩) ∧
    (setupGeminiProxy noAccountsRun).2.spawned = false :=
  C2_sentinel_or_empty_output_fails_config_without_spawn noAccountsRun
    "No accounts configured\n" rfl rfl (Or.inl rfl)

/-- C5: whenever the sidecar executable is missing, bootstrap fails at
once with the non-retryable configuration PentestError, the port
allocator is never invoked and nothing is spawned. -/
theorem C5_missing_executable_fails_before_port_probing (w : World)
    (h : w.proxyBinExists = false) :
    (setupGeminiProxy w).1 = Except.error (ThrownError.pentest
      ⟨"antigravity-claude-proxy binary not found. Please run npm install.",
        ErrKind.config, false⟩) ∧
    (setupGeminiProxy w).2.portAllocatorInvoked = false ∧
    (setupGeminiProxy w).2.spawned = false := by
  refine ⟨?_, ?_, ?_⟩ <;> simp [setupGeminiProxy, h, Effects.initial]

/-- Witness for C5: the missing-binary run fails with the configuration
error before any port probing. -/
theorem C5_witness :
    (setupGeminiProxy missingBinaryRun).1 = Except.error (ThrownError.pentest
      ⟨"antigravity-claude-proxy binary not found. Please run npm install.",
        ErrKind.config, false⟩) ∧
    (setupGeminiProxy missingBinaryRun).2.portAllocatorInvoked = false ∧
    (setupGeminiProxy missingBinaryRun).2.spawned = false :=
  C5_missing_executable_fails_before_port_probing missingBinaryRun rfl

/-- C7: against a sidecar that never responds, the health poller times
out with an elapsed wait of at least the configured timeout and less
than one retry interval beyond it, and no setupGeminiProxy run ever
attempts to kill the spawned process. -/
theorem C7_never_responding_times_out_within_tolerance_and_nothing_is_killed
    (timeoutMs : Nat) :
    (∃ e, waitForProxy (fun _ => false) timeoutMs = WaitOutcome.timedOut e ∧
      timeoutMs ≤ e ∧ e < timeoutMs + 500) ∧
    ∀ w : World, (setupGeminiProxy w).2.killed = false := by
  constructor
  · refine ⟨500 * ((timeoutMs + 499) / 500), ?_, by omega, by omega⟩
    unfold waitForProxy
    have := waitLoop_never_responds (fun _ => false) (fun t => rfl)
      ((timeoutMs + 499) / 500) 0
    simpa using this
  · exact setup_never_kills

/-- C10: whenever the accounts invocation succeeds with stdout that is
not empty but trims to the empty string, bootstrap fails with the same
non-retryable configuration PentestError as for empty output. -/
theorem C10_whitespace_only_output_fails_config (w : World) (s : String)
    (hbin : w.proxyBinExists = true)
    (hacc : w.accountsResult = Except.ok s)
    (hne : s ≠ "")
    (htrim : jsTrim s = "") :
    (setupGeminiProxy w).1 = Except.error (ThrownError.pentest
      ⟨"Antigravity proxy not authenticated", ErrKind.config, false⟩) ∧
    (setupGeminiProxy w).2.spawned = false := by
  have hcond : (stringIncludes s "No accounts configured" || decide (jsTrim s = "")) = true := by
    simp [htrim]
  constructor <;> simp [setupGeminiProxy, hbin, hacc, hcond, Effects.initial]

/-- Witness for C10: a whitespace-only accounts output, nonempty as a
string, still fails with the configuration error. -/
theorem C10_witness :
    ("  \n " ≠ "") ∧
    ((setupGeminiProxy whitespaceAccountsRun).1 = Except.error (ThrownError.pentest
      ⟨"Antigravity proxy not authenticated", ErrKind.config, false⟩) ∧
    (setupGeminiProxy whitespaceAccountsRun).2.spawned = false) :=
  ⟨by decide, C10_whitespace_only_output_fails_config whitespaceAccountsRun "  \n "
    rfl rfl (by decide) (by decide)⟩

/-- Counterexample for C3: with the default 10000 ms timeout, a sidecar
that starts responding at 9999 ms — strictly within the timeout — is
still reported timed out, because the last probe happens at 9500 ms and
the next iteration falls outside the timeout window. -/
theorem C3_counterexample_response_in_final_interval_is_missed :
    9999 < 10000 ∧
    waitForProxy (fun t => decide (9999 ≤ t)) 10000 = WaitOutcome.timedOut 10000 :=
  ⟨by decide, by decide⟩

/-- C3 as amended: the health poller probes /health on a fixed 500 ms
sub-second retry interval and reports ready as soon as a probe gets any
response, provided the sidecar starts responding at least one retry
interval before the timeout; on success the elapsed wait is below the
timeout. -/
theorem C3_health_poller_ready_before_timeout (T timeoutMs : Nat)
    (h : T + 500 ≤ timeoutMs) :
    ∃ e, waitForProxy (fun t => decide (T ≤ t)) timeoutMs = WaitOutcome.ready e ∧
      e < timeoutMs := by
  have hex : ∃ j, j < (timeoutMs + 499) / 500 ∧
      (fun t => decide (T ≤ t)) (0 + 500 * j) = true := by
    refine ⟨(T + 499) / 500, by omega, ?_⟩
    simp only [decide_eq_true_eq]
    omega
  obtain ⟨e, he⟩ :=
    waitLoop_ready_exists (fun t => decide (T ≤ t)) ((timeoutMs + 499) / 500) 0 hex
  obtain ⟨j, hj, hej, _⟩ :=
    waitLoop_ready_inv (fun t => decide (T ≤ t)) ((timeoutMs + 499) / 500) 0 e he
  exact ⟨e, by simpa [waitForProxy] using he, by omega⟩

/-- Witness for C3: a sidecar responding from 600 ms onwards is reported
ready strictly before the 10000 ms timeout. -/
theorem C3_witness :
    600 + 500 ≤ 10000 ∧
    ∃ e, waitForProxy (fun t => decide (600 ≤ t)) 10000 = WaitOutcome.ready e ∧
      e < 10000 :=
  ⟨by decide, C3_health_poller_ready_before_timeout 600 10000 (by decide)⟩

/-- Counterexample for C4: with every port of the window occupied, the
run fails with the plain could-not-find-an-open-port Error, which is not
a PentestError at all, so port exhaustion is not propagated as the
retryable tool failure kind. -/
theorem C4_counterexample_port_exhaustion_is_a_plain_error :
    (setupGeminiProxy portsExhaustedRun).1 =
      Except.error (ThrownError.generic
        "Could not find an open port between 8080 and 8180") ∧
    ∀ e : PentestError, (setupGeminiProxy portsExhaustedRun).1 ≠
      Except.error (ThrownError.pentest e) := by
  refine ⟨rfl, ?_⟩
  intro e h
  have h0 : (setupGeminiProxy portsExhaustedRun).1 =
      Except.error (ThrownError.generic
        "Could not find an open port between 8080 and 8180") := rfl
  rw [h0] at h
  simp at h

/-- C4 as amended: allocation never returns an unverified port, and port
exhaustion makes it fail, but with a plain uncategorised Error naming
the window rather than a ToolError; only the startup timeout is
propagated as the retryable tool PentestError, distinct from the
configuration kind. -/
theorem C4_error_classification :
    (∀ free p q, findAvailablePort free p = Except.ok q → free q = true) ∧
    (∀ free p, (∀ k, k ≤ 100 → free (p + k) = false) →
      findAvailablePort free p = Except.error (ThrownError.generic
        ("Could not find an open port between " ++ toString p ++ " and "
          ++ toString (p + 100)))) ∧
    (∀ w s port, w.proxyBinExists = true → w.accountsResult = Except.ok s →
      (stringIncludes s "No accounts configured" || decide (jsTrim s = "")) = false →
      (∀ t, w.respond t = false) →
      findAvailablePort w.free 8080 = Except.ok port →
      (setupGeminiProxy w).1 = Except.error (ThrownError.pentest
        ⟨"Failed to start Gemini proxy", ErrKind.tool, true⟩)) := by
  refine ⟨?_, ?_, ?_⟩
  · intro free p q h
    have h2 : portLoop free p p 100 = Except.ok q := h
    exact (portLoop_ok_inv free p 100 p q h2).1
  · intro free p hall
    exact portLoop_exhausts free p 100 p hall
  · intro w s port hbin hacc hcond hresp hfa
    have hsetup : setupGeminiProxy w = bootstrapAfterAccounts w Effects.initial := by
      simp [setupGeminiProxy, hbin, hacc, hcond]
    have hwp : waitForProxy w.respond 10000 =
        WaitOutcome.timedOut (0 + 500 * ((10000 + 499) / 500)) := by
      unfold waitForProxy
      exact waitLoop_never_responds w.respond hresp _ 0
    rw [hsetup]
    unfold bootstrapAfterAccounts
    rw [hfa, hwp]

/-- Witness for C4: a run whose sidecar never answers health probes
fails with the retryable tool PentestError. -/
theorem C4_witness :
    (setupGeminiProxy neverHealthyRun).1 = Except.error (ThrownError.pentest
      ⟨"Failed to start Gemini proxy", ErrKind.tool, true⟩) :=
  C4_error_classification.2.2 neverHealthyRun "1 account: user@example.com" 8080
    rfl rfl (by decide) (fun t => rfl) rfl

/-- C6: whenever the binary is present and the accounts invocation
itself errors, the failure is downgraded to a logged warning and
bootstrap proceeds: the port allocator runs and, as soon as it returns a
port, the sidecar is spawned. -/
theorem C6_accounts_invocation_error_warns_and_proceeds (w : World) (msg : String)
    (hbin : w.proxyBinExists = true)
    (hacc : w.accountsResult = Except.error msg) :
    (setupGeminiProxy w).2.warnedAccounts = true ∧
    (setupGeminiProxy w).2.portAllocatorInvoked = true ∧
    ∀ port, findAvailablePort w.free 8080 = Except.ok port →
      (setupGeminiProxy w).2.spawned = true := by
  have hsetup : setupGeminiProxy w =
      bootstrapAfterAccounts w { Effects.initial with warnedAccounts := true } := by
    simp [setupGeminiProxy, hbin, hacc]
  rw [hsetup]
  obtain ⟨hw, hp⟩ :=
    after_accounts_invokes_allocator w { Effects.initial with warnedAccounts := true }
  refine ⟨by rw [hw], hp, ?_⟩
  intro port hport
  exact after_accounts_spawns w _ port hport

/-- Witness for C6: a run whose accounts invocation exits nonzero still
warns, allocates port 8081 and spawns the sidecar. -/
theorem C6_witness :
    (setupGeminiProxy accountsCrashRun).2.warnedAccounts = true ∧
    (setupGeminiProxy accountsCrashRun).2.portAllocatorInvoked = true ∧
    ∀ port, findAvailablePort accountsCrashRun.free 8080 = Except.ok port →
      (setupGeminiProxy accountsCrashRun).2.spawned = true :=
  C6_accounts_invocation_error_warns_and_proceeds accountsCrashRun "exit status 1" rfl rfl

/-- C8: every successful bootstrap run allocated a port and published
exactly the derived configuration: the base URL string
http://localhost:port in ANTHROPIC_BASE_URL and the provider marker
gemini in SHANNON_MODEL_PROVIDER (PORT having been written with the same
port on the way). -/
theorem C8_success_publishes_base_url_and_provider_marker (w : World)
    (h : (setupGeminiProxy w).1 = Except.ok ()) :
    ∃ port, findAvailablePort w.free 8080 = Except.ok port ∧
      (setupGeminiProxy w).2.envANTHROPIC_BASE_URL =
        some ("http://localhost:" ++ toString port) ∧
      (setupGeminiProxy w).2.envSHANNON_MODEL_PROVIDER = some "gemini" ∧
      (setupGeminiProxy w).2.envPORT = some (toString port) := by
  rcases setup_shape w with ⟨e, herr, _, _, _⟩ | ⟨eff1, _, heq⟩
  · rw [herr] at h
    exact absurd h (by simp)
  · rw [heq] at h ⊢
    exact after_accounts_ok_inv w eff1 h

/-- Witness for C8: the healthy run publishes http://localhost:8080 and
the gemini marker. -/
theorem C8_witness :
    ∃ port, findAvailablePort healthyRun.free 8080 = Except.ok port ∧
      (setupGeminiProxy healthyRun).2.envANTHROPIC_BASE_URL =
        some ("http://localhost:" ++ toString port) ∧
      (setupGeminiProxy healthyRun).2.envSHANNON_MODEL_PROVIDER = some "gemini" ∧
      (setupGeminiProxy healthyRun).2.envPORT = some (toString port) :=
  C8_success_publishes_base_url_and_provider_marker healthyRun rfl

/-- C9: every run that fails with the startup-timeout ToolError has
already written PORT with the allocated port and spawned the sidecar,
while ANTHROPIC_BASE_URL and SHANNON_MODEL_PROVIDER are left unset. -/
theorem C9_timeout_failure_leaves_port_set_and_publication_unset (w : World)
    (h : (setupGeminiProxy w).1 = Except.error (ThrownError.pentest
      ⟨"Failed to start Gemini proxy", ErrKind.tool, true⟩)) :
    ∃ port, findAvailablePort w.free 8080 = Except.ok port ∧
      (setupGeminiProxy w).2.envPORT = some (toString port) ∧
      (setupGeminiProxy w).2.spawned = true ∧
      (setupGeminiProxy w).2.envANTHROPIC_BASE_URL = none ∧
      (setupGeminiProxy w).2.envSHANNON_MODEL_PROVIDER = none := by
  rcases setup_shape w with ⟨e, herr, hkind, _, _⟩ | ⟨eff1, heff1, heq⟩
  · rw [herr] at h
    simp only [Except.error.injEq, ThrownError.pentest.injEq] at h
    rw [h] at hkind
    simp at hkind
  · rw [heq] at h ⊢
    rcases heff1 with h1 | h1 <;> subst h1 <;>
      exact after_accounts_timeout_inv w _ h

/-- Witness for C9: the never-healthy run times out with PORT already
set to 8080 and both publication variables unset. -/
theorem C9_witness :
    ∃ port, findAvailablePort neverHealthyRun.free 8080 = Except.ok port ∧
      (setupGeminiProxy neverHealthyRun).2.envPORT = some (toString port) ∧
      (setupGeminiProxy neverHealthyRun).2.spawned = true ∧
      (setupGeminiProxy neverHealthyRun).2.envANTHROPIC_BASE_URL = none ∧
      (setupGeminiProxy neverHealthyRun).2.envSHANNON_MODEL_PROVIDER = none :=
  C9_timeout_failure_leaves_port_set_and_publication_unset neverHealthyRun rfl

end GeminiProxy
